import Mathlib

/-!
Verification of the adk-python-temporal repository: a shallow embedding of
`src/google/adk/platform/time.py`, `src/google/adk/platform/uuid.py`,
`src/google/adk/runtime.py` and `src/google/adk/integrations/temporal.py`,
followed by theorems settling the specification claims.

Modelling conventions:
* Python module-level mutable globals become explicit state records; each
  module function becomes a Lean function threading that state.
* The external impure sources `time.time` and `str(uuid.uuid4())` are
  modelled through an environment `SysEnv` supplying their readings; a
  provider value is either the built-in external source or a user callable.
* Python object identity (needed for the in-place mutation of the request)
  is modelled with a small heap: requests live in numbered cells and the
  dispatch to the remote-execution channel carries cell references.
* `await workflow.execute_activity(...)` becomes a call to an abstract
  channel function `Dispatch -> Heap -> Except TemporalError (List LlmResponse)`,
  and the dispatches a call makes are returned as an explicit trace.
-/

/-- A time provider slot value: either the external `time.time` function
(the built-in wall clock) or a user-supplied callable. -/
inductive TimeProviderV where
  | timeTime : TimeProviderV
  | custom : (Unit → Rat) → TimeProviderV

/-- An id provider slot value: either the external built-in
`lambda: str(uuid.uuid4())` or a user-supplied callable. -/
inductive IdProviderV where
  | uuid4Str : IdProviderV
  | custom : (Unit → String) → IdProviderV

/-- Environment supplying the readings of the external impure sources:
`time.time()` and `str(uuid.uuid4())`. -/
structure SysEnv where
  time_time : Unit → Rat
  uuid4 : Unit → String

/-- Calling a time provider: the built-in delegates to `time.time`. -/
def runTimeProvider (env : SysEnv) : TimeProviderV → Rat
  | .timeTime => env.time_time ()
  | .custom f => f ()

/-- Calling an id provider: the built-in delegates to `str(uuid.uuid4())`. -/
def runIdProvider (env : SysEnv) : IdProviderV → String
  | .uuid4Str => env.uuid4 ()
  | .custom f => f ()

namespace PlatformTime

/-- `_default_time_provider: Callable[[], float] = time.time` -/
def default_time_provider : TimeProviderV := .timeTime

/-- The module-level mutable global `_time_provider` of
`google/adk/platform/time.py`. -/
structure State where
  time_provider : TimeProviderV

/-- Module state right after import: `_time_provider = _default_time_provider`. -/
def initState : State := ⟨default_time_provider⟩

/-- `set_time_provider(provider)`: `global _time_provider; _time_provider = provider` -/
def set_time_provider (provider : TimeProviderV) (σ : State) : State :=
  { σ with time_provider := provider }

/-- `reset_time_provider()`: `_time_provider = _default_time_provider` -/
def reset_time_provider (_σ : State) : State :=
  { time_provider := default_time_provider }

/-- `get_time()`: `return _time_provider()` -/
def get_time (env : SysEnv) (σ : State) : Rat :=
  runTimeProvider env σ.time_provider

end PlatformTime

namespace PlatformUuid

/-- `_default_id_provider: Callable[[], str] = lambda: str(uuid.uuid4())` -/
def default_id_provider : IdProviderV := .uuid4Str

/-- The module-level mutable global `_id_provider` of
`google/adk/platform/uuid.py`. -/
structure State where
  id_provider : IdProviderV

/-- Module state right after import: `_id_provider = _default_id_provider`. -/
def initState : State := ⟨default_id_provider⟩

/-- `set_id_provider(provider)`: `global _id_provider; _id_provider = provider` -/
def set_id_provider (provider : IdProviderV) (σ : State) : State :=
  { σ with id_provider := provider }

/-- `reset_id_provider()`: `_id_provider = _default_id_provider` -/
def reset_id_provider (_σ : State) : State :=
  { id_provider := default_id_provider }

/-- `new_uuid()`: `return _id_provider()` -/
def new_uuid (env : SysEnv) (σ : State) : String :=
  runIdProvider env σ.id_provider

end PlatformUuid

namespace Runtime

/-- The module-level mutable globals `_time_provider` and `_id_provider`
of `google/adk/runtime.py` (a module distinct from the two platform
modules, with its own copies of both slots and no reset functions). -/
structure State where
  time_provider : TimeProviderV
  id_provider : IdProviderV

/-- Module state right after import:
`_time_provider = time.time; _id_provider = lambda: str(uuid.uuid4())`. -/
def initState : State := ⟨.timeTime, .uuid4Str⟩

/-- `set_time_provider(provider)` of `runtime.py`. -/
def set_time_provider (provider : TimeProviderV) (σ : State) : State :=
  { σ with time_provider := provider }

/-- `set_id_provider(provider)` of `runtime.py`. -/
def set_id_provider (provider : IdProviderV) (σ : State) : State :=
  { σ with id_provider := provider }

/-- `get_time()` of `runtime.py`: `return _time_provider()` -/
def get_time (env : SysEnv) (σ : State) : Rat :=
  runTimeProvider env σ.time_provider

/-- `new_uuid()` of `runtime.py`: `return _id_provider()` -/
def new_uuid (env : SysEnv) (σ : State) : String :=
  runIdProvider env σ.id_provider

end Runtime

/-- The combined process-wide state: the three modules, each holding its
own independent globals. -/
structure GlobalState where
  platform_time : PlatformTime.State
  platform_uuid : PlatformUuid.State
  runtime : Runtime.State

/-- The complete mutating API the three modules expose. `runtime.py`
defines only the two setters (no reset), so no runtime-reset command
exists. -/
inductive Cmd where
  | ptSet (p : TimeProviderV)
  | ptReset
  | puSet (p : IdProviderV)
  | puReset
  | rtSetTime (p : TimeProviderV)
  | rtSetId (p : IdProviderV)

/-- Running one mutating call against the process state. -/
def Cmd.run : Cmd → GlobalState → GlobalState
  | .ptSet p, g => { g with platform_time := PlatformTime.set_time_provider p g.platform_time }
  | .ptReset, g => { g with platform_time := PlatformTime.reset_time_provider g.platform_time }
  | .puSet p, g => { g with platform_uuid := PlatformUuid.set_id_provider p g.platform_uuid }
  | .puReset, g => { g with platform_uuid := PlatformUuid.reset_id_provider g.platform_uuid }
  | .rtSetTime p, g => { g with runtime := Runtime.set_time_provider p g.runtime }
  | .rtSetId p, g => { g with runtime := Runtime.set_id_provider p g.runtime }

/-- Running a sequence of mutating calls, left to right. -/
def runCmds : List Cmd → GlobalState → GlobalState
  | [], g => g
  | c :: cs, g => runCmds cs (c.run g)

/-- Does the command touch the platform time module's slot? -/
def Cmd.touchesPlatformTime : Cmd → Bool
  | .ptSet _ => true
  | .ptReset => true
  | _ => false

/-- Does the command touch the platform uuid module's slot? -/
def Cmd.touchesPlatformUuid : Cmd → Bool
  | .puSet _ => true
  | .puReset => true
  | _ => false

/-- Is the command a `runtime.set_time_provider` call? -/
def Cmd.isRtSetTime : Cmd → Bool
  | .rtSetTime _ => true
  | _ => false

/-- Is the command a `runtime.set_id_provider` call? -/
def Cmd.isRtSetId : Cmd → Bool
  | .rtSetId _ => true
  | _ => false

/-!
Embedding of `src/google/adk/integrations/temporal.py`.
-/

/-- An ADK `LlmRequest`. The `model` field is `Optional[str]`; every other
field of the request (contents, config, ...) is collapsed into the opaque
`payload`, which the integration layer never touches. -/
structure LlmRequest where
  model : Option String
  payload : String
deriving DecidableEq, Repr

/-- Python truthiness of the request's `model` field: `not request.model`
is true exactly when the field is `None` or the empty string. -/
def falsyModel : Option String → Bool
  | none => true
  | some s => s = ""

/-- An ADK `LlmResponse`, opaque to the integration layer. -/
structure LlmResponse where
  content : String
deriving DecidableEq, Repr

/-- Errors a call can raise: the `ValueError` that
`generate_content_activity` raises itself, or any failure surfaced by the
remote-execution channel. -/
inductive TemporalError where
  | valueError (msg : String)
  | channelFailure (info : String)
deriving DecidableEq, Repr

/-- A heap of Python `LlmRequest` objects: cell index = object identity.
Passing a request to `workflow.execute_activity` passes the reference, so
a dispatch records cell indices, not copies. -/
def Heap := List LlmRequest

/-- Dereference a cell. -/
def Heap.get (h : Heap) (r : Nat) : Option LlmRequest := List.get? h r

/-- Mutate a cell in place (Python attribute assignment on the object). -/
def Heap.set (h : Heap) (r : Nat) (v : LlmRequest) : Heap := List.set h r v

/-- Size of the heap; a call that allocates no new object leaves it fixed. -/
def Heap.size (h : Heap) : Nat := List.length h

/-- One call to `workflow.execute_activity(activity, args=[...], **options)`
made by `TemporalModel.generate_content_async`: the activity (identified by
name), the references of the request arguments, and the keyword options
forwarded verbatim. -/
structure Dispatch where
  activity : String
  argRefs : List Nat
  options : List (String × String)
deriving DecidableEq, Repr

/-- The remote-execution channel for generation calls: resolves a dispatch
against the current heap to a result list or a failure. -/
def Channel := Dispatch → Heap → Except TemporalError (List LlmResponse)

/-- The registry lookup plus generation drive performed by
`generate_content_activity`: `LLMRegistry.new_llm(name)` followed by
collecting `llm.generate_content_async(request)`. The registry is an
external collaborator, so it is a parameter. -/
def Registry := String → LlmRequest → List LlmResponse

/-- `generate_content_activity(request)`:
raises `ValueError` when `request.model` is falsy, else resolves the model
by name in the registry and returns every produced response as a list. -/
def generate_content_activity (registry : Registry) (request : LlmRequest) :
    Except TemporalError (List LlmResponse) :=
  if falsyModel request.model then
    .error (.valueError "LlmRequest.model must be set when using generate_content_activity.")
  else
    .ok (registry (request.model.getD "") request)

/-- The channel a real worker provides when `generate_content_activity` is
the registered activity: executing the dispatch runs the activity on the
dereferenced request argument. -/
def defaultChannel (registry : Registry) : Channel := fun d h =>
  if d.activity = "generate_content_activity" then
    match d.argRefs with
    | [r] =>
      match h.get r with
      | some req => generate_content_activity registry req
      | none => .error (.channelFailure "dangling request reference")
    | _ => .error (.channelFailure "generate_content_activity takes one argument")
  else
    .error (.channelFailure "activity not registered")

/-- A `TemporalModel` instance: the configured model name (`self.model`,
set from `model_name` by `__init__`), the activity definition it dispatches
(identified by name; defaults to `generate_content_activity`), and the
verbatim `activity_options`. -/
structure TemporalModel where
  model : String
  activity_def : String
  activity_options : List (String × String)
deriving DecidableEq, Repr

/-- `TemporalModel(model_name, activity_def=generate_content_activity, **options)`. -/
def TemporalModel.mk_default (model_name : String)
    (activity_options : List (String × String)) : TemporalModel :=
  { model := model_name
    activity_def := "generate_content_activity"
    activity_options := activity_options }

/-- The in-place model fill-in at the top of `generate_content_async`:
`if not llm_request.model: llm_request.model = self.model`, mutating the
caller's object through its reference. -/
def fillModel (self : TemporalModel) (h : Heap) (reqRef : Nat) : Heap :=
  match h.get reqRef with
  | some req =>
    if falsyModel req.model then h.set reqRef { req with model := some self.model } else h
  | none => h

/-- The single `workflow.execute_activity` call `generate_content_async`
issues: `(self.activity_def, args=[llm_request], **self.activity_options)`. -/
def genDispatch (self : TemporalModel) (reqRef : Nat) : Dispatch :=
  { activity := self.activity_def
    argRefs := [reqRef]
    options := self.activity_options }

/-- The trailing `for response in responses: yield response` loop: each
element of the returned list becomes one yielded element, in order. -/
def yieldAll : List LlmResponse → List LlmResponse
  | [] => []
  | r :: rest => r :: yieldAll rest

/-- `TemporalModel.generate_content_async(llm_request, stream=False)`:
fills in the model name when absent, issues exactly one activity dispatch
through the channel, and on success yields every returned response in
order; the `stream` flag is accepted but never read. Returns the heap
after the call (the caller's request object lives there), the dispatch
trace, and the yielded sequence or the propagated failure. -/
def TemporalModel.generate_content_async (self : TemporalModel)
    (channel : Channel) (h : Heap) (reqRef : Nat) (_stream : Bool) :
    Heap × List Dispatch × Except TemporalError (List LlmResponse) :=
  (fillModel self h reqRef, [genDispatch self reqRef],
    match channel (genDispatch self reqRef) (fillModel self h reqRef) with
    | .ok responses => .ok (yieldAll responses)
    | .error e => .error e)

/-- `TemporalModel.default_activities()`. -/
def TemporalModel.default_activities : List String :=
  ["generate_content_activity"]

/-!
Embedding of `activity_as_tool` / `tool_wrapper`.
-/

/-- A Temporal activity definition as `activity_as_tool` sees it: its
`__name__`, an optional `name` attribute (Temporal's activity name), its
`__doc__`, its `__annotations__` when present, and its `inspect.signature`
when inspectable (parameter names). -/
structure ActivityDef where
  py_name : String
  name_attr : Option String
  doc : Option String
  hints : Option (List (String × String))
  signature : Option (List String)
deriving DecidableEq, Repr

/-- The callable returned by `activity_as_tool`: the closed-over activity
and options, plus the metadata copied onto the wrapper
(`__doc__`, `__name__`, `__annotations__`, `__signature__`). -/
structure ToolWrapper where
  activity : ActivityDef
  options : List (String × String)
  doc : Option String
  name : String
  hints : Option (List (String × String))
  signature : Option (List String)
deriving DecidableEq, Repr

/-- `activity_as_tool(activity_def, **activity_options)`: builds the
wrapper and copies metadata:
`__doc__ = activity_def.__doc__`;
`__name__ = getattr(activity_def, "name", activity_def.__name__)`;
`__annotations__` copied when the attribute exists;
`__signature__ = inspect.signature(activity_def)` inside try/except, so the
copy is best-effort. -/
def activity_as_tool (activity_def : ActivityDef)
    (activity_options : List (String × String)) : ToolWrapper :=
  { activity := activity_def
    options := activity_options
    doc := activity_def.doc
    name := activity_def.name_attr.getD activity_def.py_name
    hints := activity_def.hints
    signature := activity_def.signature }

/-- One call to `workflow.execute_activity(activity_def, args=..., **options)`
made by `tool_wrapper`; tool arguments are opaque to the layer, hence the
type parameter. -/
structure ToolDispatch (α : Type) where
  activity : ActivityDef
  args : List α
  options : List (String × String)
deriving DecidableEq, Repr

/-- The ordered argument list `tool_wrapper` builds:
`args=list(args) + list(kwargs.values()) if kwargs else list(args)`
(the conditional expression binds loosest, so with keywords present the
list is positionals followed by keyword values in supplied order). -/
def flattenArgs {α : Type} (args : List α) (kwargs : List (String × α)) : List α :=
  if kwargs.isEmpty then args else args ++ kwargs.map Prod.snd

/-- `tool_wrapper(*args, **kwargs)`: issues exactly one
`workflow.execute_activity` call with the flattened argument list and the
wrap-time options, and returns the channel's result unchanged. The
dispatch trace is returned alongside the result. -/
def tool_wrapper {α β : Type} (w : ToolWrapper)
    (channel : ToolDispatch α → Except TemporalError β)
    (args : List α) (kwargs : List (String × α)) :
    List (ToolDispatch α) × Except TemporalError β :=
  let d : ToolDispatch α :=
    { activity := w.activity
      args := flattenArgs args kwargs
      options := w.options }
  ([d], channel d)

/-!
Helper lemmas shared by the claim theorems.
-/

theorem yieldAll_eq (rs : List LlmResponse) : yieldAll rs = rs := by
  induction rs with
  | nil => rfl
  | cons r rest ih => simp [yieldAll, ih]

theorem gen_heap_eq (m : TemporalModel) (channel : Channel) (h : Heap)
    (reqRef : Nat) (stream : Bool) :
    (m.generate_content_async channel h reqRef stream).1 = fillModel m h reqRef := rfl

theorem gen_trace_eq (m : TemporalModel) (channel : Channel) (h : Heap)
    (reqRef : Nat) (stream : Bool) :
    (m.generate_content_async channel h reqRef stream).2.1 = [genDispatch m reqRef] := rfl

theorem fillModel_eq (m : TemporalModel) (h : Heap) (reqRef : Nat)
    (req : LlmRequest) (hget : Heap.get h reqRef = some req) :
    fillModel m h reqRef =
      if falsyModel req.model then
        Heap.set h reqRef { req with model := some m.model }
      else h := by
  unfold fillModel
  rw [hget]

theorem heap_get_set_self (h : Heap) (r : Nat) (v old : LlmRequest)
    (hget : Heap.get h r = some old) :
    Heap.get (Heap.set h r v) r = some v := by
  have hlt : r < List.length h := by
    rcases List.get?_eq_some.mp hget with ⟨hlt, _⟩
    exact hlt
  exact List.get?_set_eq_of_lt v hlt

theorem fillModel_get (m : TemporalModel) (h : Heap) (reqRef : Nat)
    (req : LlmRequest) (hget : Heap.get h reqRef = some req) :
    Heap.get (fillModel m h reqRef) reqRef =
      some { req with
             model := if falsyModel req.model then some m.model else req.model } := by
  rw [fillModel_eq m h reqRef req hget]
  by_cases hf : falsyModel req.model
  · rw [if_pos hf, if_pos hf, heap_get_set_self h reqRef _ req hget]
  · rw [if_neg hf, if_neg hf, hget]

theorem fillModel_size (m : TemporalModel) (h : Heap) (reqRef : Nat) :
    Heap.size (fillModel m h reqRef) = Heap.size h := by
  unfold fillModel Heap.size Heap.set
  cases Heap.get h reqRef with
  | none => rfl
  | some req =>
    by_cases hf : falsyModel req.model = true
    · simp [hf, List.length_set]
    · simp [hf]

theorem runCmds_pt_frame (cs : List Cmd) (g : GlobalState)
    (hcs : ∀ c ∈ cs, c.touchesPlatformTime = false) :
    (runCmds cs g).platform_time = g.platform_time := by
  induction cs generalizing g with
  | nil => rfl
  | cons c cs ih =>
    have hc := hcs c (List.mem_cons_self c cs)
    have hrest : ∀ x ∈ cs, x.touchesPlatformTime = false :=
      fun x hx => hcs x (List.mem_cons_of_mem c hx)
    rw [runCmds, ih (c.run g) hrest]
    cases c with
    | ptSet p => exact absurd hc (by simp [Cmd.touchesPlatformTime])
    | ptReset => exact absurd hc (by simp [Cmd.touchesPlatformTime])
    | puSet p => rfl
    | puReset => rfl
    | rtSetTime p => rfl
    | rtSetId p => rfl

theorem runCmds_pu_frame (cs : List Cmd) (g : GlobalState)
    (hcs : ∀ c ∈ cs, c.touchesPlatformUuid = false) :
    (runCmds cs g).platform_uuid = g.platform_uuid := by
  induction cs generalizing g with
  | nil => rfl
  | cons c cs ih =>
    have hc := hcs c (List.mem_cons_self c cs)
    have hrest : ∀ x ∈ cs, x.touchesPlatformUuid = false :=
      fun x hx => hcs x (List.mem_cons_of_mem c hx)
    rw [runCmds, ih (c.run g) hrest]
    cases c with
    | ptSet p => rfl
    | ptReset => rfl
    | puSet p => exact absurd hc (by simp [Cmd.touchesPlatformUuid])
    | puReset => exact absurd hc (by simp [Cmd.touchesPlatformUuid])
    | rtSetTime p => rfl
    | rtSetId p => rfl

theorem runCmds_rt_time_frame (cs : List Cmd) (g : GlobalState)
    (hcs : ∀ c ∈ cs, c.isRtSetTime = false) :
    (runCmds cs g).runtime.time_provider = g.runtime.time_provider := by
  induction cs generalizing g with
  | nil => rfl
  | cons c cs ih =>
    have hc := hcs c (List.mem_cons_self c cs)
    have hrest : ∀ x ∈ cs, x.isRtSetTime = false :=
      fun x hx => hcs x (List.mem_cons_of_mem c hx)
    rw [runCmds, ih (c.run g) hrest]
    cases c with
    | ptSet p => rfl
    | ptReset => rfl
    | puSet p => rfl
    | puReset => rfl
    | rtSetTime p => exact absurd hc (by simp [Cmd.isRtSetTime])
    | rtSetId p => rfl

theorem runCmds_rt_id_frame (cs : List Cmd) (g : GlobalState)
    (hcs : ∀ c ∈ cs, c.isRtSetId = false) :
    (runCmds cs g).runtime.id_provider = g.runtime.id_provider := by
  induction cs generalizing g with
  | nil => rfl
  | cons c cs ih =>
    have hc := hcs c (List.mem_cons_self c cs)
    have hrest : ∀ x ∈ cs, x.isRtSetId = false :=
      fun x hx => hcs x (List.mem_cons_of_mem c hx)
    rw [runCmds, ih (c.run g) hrest]
    cases c with
    | ptSet p => rfl
    | ptReset => rfl
    | puSet p => rfl
    | puReset => rfl
    | rtSetTime p => rfl
    | rtSetId p => exact absurd hc (by simp [Cmd.isRtSetId])

theorem gen_result_eq (m : TemporalModel) (channel : Channel) (h : Heap)
    (reqRef : Nat) (stream : Bool) :
    (m.generate_content_async channel h reqRef stream).2.2
      = match channel (genDispatch m reqRef) (fillModel m h reqRef) with
        | .ok responses => Except.ok (yieldAll responses)
        | .error e => Except.error e := rfl

theorem gen_result_ok (m : TemporalModel) (channel : Channel) (h : Heap)
    (reqRef : Nat) (stream : Bool) (rs : List LlmResponse)
    (hch : channel (genDispatch m reqRef) (fillModel m h reqRef) = Except.ok rs) :
    (m.generate_content_async channel h reqRef stream).2.2 = Except.ok rs := by
  rw [gen_result_eq, hch]
  simp [yieldAll_eq]

theorem gen_result_error (m : TemporalModel) (channel : Channel) (h : Heap)
    (reqRef : Nat) (stream : Bool) (e : TemporalError)
    (hch : channel (genDispatch m reqRef) (fillModel m h reqRef) = Except.error e) :
    (m.generate_content_async channel h reqRef stream).2.2 = Except.error e := by
  rw [gen_result_eq, hch]

/-!
The claim theorems.
-/

/-- C1: when the request's `model` is unset (falsy), the request object
handed to the remote-execution channel carries the instance's configured
model name; when the caller already set it to a truthy value, that value
is kept, regardless of the instance's configuration. The single equation
covers both cases through the conditional. -/
theorem c1_request_model_fill (m : TemporalModel) (channel : Channel) (h : Heap)
    (reqRef : Nat) (stream : Bool) (req : LlmRequest)
    (hget : Heap.get h reqRef = some req) :
    (m.generate_content_async channel h reqRef stream).2.1 = [genDispatch m reqRef] ∧
    (genDispatch m reqRef).argRefs = [reqRef] ∧
    Heap.get (m.generate_content_async channel h reqRef stream).1 reqRef
      = some { req with
               model := if falsyModel req.model then some m.model else req.model } := by
  refine ⟨gen_trace_eq m channel h reqRef stream, rfl, ?_⟩
  rw [gen_heap_eq]
  exact fillModel_get m h reqRef req hget

theorem c1_request_model_fill_witness :
    Heap.get [LlmRequest.mk none "hi"] 0 = some (LlmRequest.mk none "hi") ∧
    ((TemporalModel.mk "m" "generate_content_activity" []).generate_content_async
        (fun _ _ => Except.ok []) [LlmRequest.mk none "hi"] 0 false).2.1
      = [genDispatch (TemporalModel.mk "m" "generate_content_activity" []) 0] ∧
    (genDispatch (TemporalModel.mk "m" "generate_content_activity" []) 0).argRefs = [0] ∧
    Heap.get ((TemporalModel.mk "m" "generate_content_activity" []).generate_content_async
        (fun _ _ => Except.ok []) [LlmRequest.mk none "hi"] 0 false).1 0
      = some (LlmRequest.mk (some "m") "hi") :=
  ⟨rfl, c1_request_model_fill (TemporalModel.mk "m" "generate_content_activity" [])
    (fun _ _ => Except.ok []) [LlmRequest.mk none "hi"] 0 false
    (LlmRequest.mk none "hi") rfl⟩

/-- C2: when the channel returns a list of `k` response fragments for the
single generate dispatch, the call yields exactly that list: same
elements, same order, nothing dropped or duplicated, after exactly one
dispatch. -/
theorem c2_response_fan_out (m : TemporalModel) (channel : Channel) (h : Heap)
    (reqRef : Nat) (stream : Bool) (rs : List LlmResponse)
    (hch : channel (genDispatch m reqRef) (fillModel m h reqRef) = Except.ok rs) :
    (m.generate_content_async channel h reqRef stream).2.2 = Except.ok rs ∧
    (m.generate_content_async channel h reqRef stream).2.1.length = 1 := by
  refine ⟨gen_result_ok m channel h reqRef stream rs hch, ?_⟩
  rw [gen_trace_eq]
  rfl

theorem c2_response_fan_out_witness :
    ((fun _ _ => Except.ok [LlmResponse.mk "R1", LlmResponse.mk "R2"] : Channel)
        (genDispatch (TemporalModel.mk "m" "generate_content_activity" []) 0)
        (fillModel (TemporalModel.mk "m" "generate_content_activity" [])
          [LlmRequest.mk (some "x") "hi"] 0)
      = Except.ok [LlmResponse.mk "R1", LlmResponse.mk "R2"]) ∧
    ((TemporalModel.mk "m" "generate_content_activity" []).generate_content_async
        (fun _ _ => Except.ok [LlmResponse.mk "R1", LlmResponse.mk "R2"])
        [LlmRequest.mk (some "x") "hi"] 0 false).2.2
      = Except.ok [LlmResponse.mk "R1", LlmResponse.mk "R2"] ∧
    ((TemporalModel.mk "m" "generate_content_activity" []).generate_content_async
        (fun _ _ => Except.ok [LlmResponse.mk "R1", LlmResponse.mk "R2"])
        [LlmRequest.mk (some "x") "hi"] 0 false).2.1.length = 1 :=
  ⟨rfl, c2_response_fan_out (TemporalModel.mk "m" "generate_content_activity" [])
    (fun _ _ => Except.ok [LlmResponse.mk "R1", LlmResponse.mk "R2"])
    [LlmRequest.mk (some "x") "hi"] 0 false
    [LlmResponse.mk "R1", LlmResponse.mk "R2"] rfl⟩

/-- C3 counterexample: with both the request model and the instance model
name empty, `generate_content_async` still issues one
`workflow.execute_activity` dispatch — the dispatch trace is nonempty —
and the descriptive `ValueError` only arises inside the dispatched
`generate_content_activity`, contradicting the claim that no call to the
remote-execution channel is made. -/
theorem c3_counterexample :
    ((TemporalModel.mk_default "" []).generate_content_async
        (defaultChannel (fun _ _ => [])) [LlmRequest.mk none "p"] 0 false).2.1
      = [Dispatch.mk "generate_content_activity" [0] []] ∧
    ((TemporalModel.mk_default "" []).generate_content_async
        (defaultChannel (fun _ _ => [])) [LlmRequest.mk none "p"] 0 false).2.1 ≠ [] ∧
    ((TemporalModel.mk_default "" []).generate_content_async
        (defaultChannel (fun _ _ => [])) [LlmRequest.mk none "p"] 0 false).2.2
      = Except.error (.valueError
          "LlmRequest.model must be set when using generate_content_activity.") :=
  ⟨rfl, by decide, rfl⟩

/-- C3 amended: with the request model falsy and the instance constructed
with an empty model name (and the default `generate_content_activity`),
the generation call fails with the descriptive configuration `ValueError`
and yields no response fragment — but the error is raised by the remote
unit of work after exactly one dispatch to the remote-execution channel,
not before dispatch. -/
theorem c3_config_error_after_dispatch (registry : Registry) (m : TemporalModel)
    (h : Heap) (reqRef : Nat) (stream : Bool) (req : LlmRequest)
    (hact : m.activity_def = "generate_content_activity")
    (hm : m.model = "")
    (hget : Heap.get h reqRef = some req)
    (hfal : falsyModel req.model = true) :
    (m.generate_content_async (defaultChannel registry) h reqRef stream).2.1.length = 1 ∧
    (m.generate_content_async (defaultChannel registry) h reqRef stream).2.2
      = Except.error (.valueError
          "LlmRequest.model must be set when using generate_content_activity.") ∧
    ∀ rs, (m.generate_content_async (defaultChannel registry) h reqRef stream).2.2
      ≠ Except.ok rs := by
  have hgetf : Heap.get (fillModel m h reqRef) reqRef
      = some { req with model := some "" } := by
    rw [fillModel_get m h reqRef req hget, hfal, hm]
    simp
  have hchan : defaultChannel registry (genDispatch m reqRef) (fillModel m h reqRef)
      = Except.error (.valueError
          "LlmRequest.model must be set when using generate_content_activity.") := by
    simp [defaultChannel, genDispatch, hact, hgetf, generate_content_activity, falsyModel]
  refine ⟨by rw [gen_trace_eq]; rfl,
    gen_result_error m (defaultChannel registry) h reqRef stream _ hchan, ?_⟩
  intro rs hc
  rw [gen_result_error m (defaultChannel registry) h reqRef stream _ hchan] at hc
  exact Except.noConfusion hc

theorem c3_config_error_after_dispatch_witness :
    (TemporalModel.mk_default "" []).activity_def = "generate_content_activity" ∧
    (TemporalModel.mk_default "" []).model = "" ∧
    Heap.get [LlmRequest.mk none "p"] 0 = some (LlmRequest.mk none "p") ∧
    falsyModel (LlmRequest.mk none "p").model = true ∧
    (((TemporalModel.mk_default "" []).generate_content_async
        (defaultChannel (fun _ _ => [])) [LlmRequest.mk none "p"] 0 false).2.1.length = 1 ∧
      ((TemporalModel.mk_default "" []).generate_content_async
          (defaultChannel (fun _ _ => [])) [LlmRequest.mk none "p"] 0 false).2.2
        = Except.error (.valueError
            "LlmRequest.model must be set when using generate_content_activity.") ∧
      ∀ rs, ((TemporalModel.mk_default "" []).generate_content_async
          (defaultChannel (fun _ _ => [])) [LlmRequest.mk none "p"] 0 false).2.2
        ≠ Except.ok rs) :=
  ⟨rfl, rfl, rfl, rfl,
    c3_config_error_after_dispatch (fun _ _ => []) (TemporalModel.mk_default "" [])
      [LlmRequest.mk none "p"] 0 false (LlmRequest.mk none "p") rfl rfl rfl rfl⟩

/-- C4: invoking a wrapped capability issues exactly one
remote-execution-channel call; its ordered argument list is the positional
arguments in order followed by the keyword values in supplied order, and
its options are the wrap-time execution options, unmodified. -/
theorem c4_argument_forwarding {α β : Type} (a : ActivityDef)
    (o : List (String × String)) (channel : ToolDispatch α → Except TemporalError β)
    (ps : List α) (ks : List (String × α)) :
    (tool_wrapper (activity_as_tool a o) channel ps ks).1
      = [ToolDispatch.mk a (ps ++ ks.map Prod.snd) o] := by
  cases ks with
  | nil => simp [tool_wrapper, activity_as_tool, flattenArgs]
  | cons k ks => simp [tool_wrapper, activity_as_tool, flattenArgs]

/-- C5: a failure raised by the remote-execution channel is propagated
unchanged by both the wrapped-capability call and the generation call, and
the failing generation call yields no response fragments. -/
theorem c5_failure_propagation {α β : Type} (w : ToolWrapper)
    (tch : ToolDispatch α → Except TemporalError β)
    (args : List α) (kwargs : List (String × α)) (e1 : TemporalError)
    (m : TemporalModel) (gch : Channel) (h : Heap) (reqRef : Nat) (stream : Bool)
    (e2 : TemporalError)
    (htool : tch (ToolDispatch.mk w.activity (flattenArgs args kwargs) w.options)
      = Except.error e1)
    (hgen : gch (genDispatch m reqRef) (fillModel m h reqRef) = Except.error e2) :
    (tool_wrapper w tch args kwargs).2 = Except.error e1 ∧
    (m.generate_content_async gch h reqRef stream).2.2 = Except.error e2 ∧
    ∀ rs, (m.generate_content_async gch h reqRef stream).2.2 ≠ Except.ok rs := by
  refine ⟨htool, gen_result_error m gch h reqRef stream e2 hgen, ?_⟩
  intro rs hc
  rw [gen_result_error m gch h reqRef stream e2 hgen] at hc
  exact Except.noConfusion hc

theorem c5_failure_propagation_witness :
    ((fun _ => Except.error (.channelFailure "boom")
        : ToolDispatch Nat → Except TemporalError Nat)
      (ToolDispatch.mk (activity_as_tool (ActivityDef.mk "f" none none none none) []).activity
        (flattenArgs [1, 2] []) (activity_as_tool (ActivityDef.mk "f" none none none none) []).options)
      = Except.error (.channelFailure "boom")) ∧
    ((fun _ _ => Except.error (.channelFailure "down") : Channel)
      (genDispatch (TemporalModel.mk "m" "generate_content_activity" []) 0)
      (fillModel (TemporalModel.mk "m" "generate_content_activity" [])
        [LlmRequest.mk (some "x") "hi"] 0)
      = Except.error (.channelFailure "down")) ∧
    ((tool_wrapper (activity_as_tool (ActivityDef.mk "f" none none none none) [])
        ((fun _ => Except.error (.channelFailure "boom"))
          : ToolDispatch Nat → Except TemporalError Nat) [1, 2] []).2
      = Except.error (.channelFailure "boom") ∧
      ((TemporalModel.mk "m" "generate_content_activity" []).generate_content_async
          (fun _ _ => Except.error (.channelFailure "down"))
          [LlmRequest.mk (some "x") "hi"] 0 false).2.2
        = Except.error (.channelFailure "down") ∧
      ∀ rs, ((TemporalModel.mk "m" "generate_content_activity" []).generate_content_async
          (fun _ _ => Except.error (.channelFailure "down"))
          [LlmRequest.mk (some "x") "hi"] 0 false).2.2 ≠ Except.ok rs) :=
  ⟨rfl, rfl,
    c5_failure_propagation (activity_as_tool (ActivityDef.mk "f" none none none none) [])
      (fun _ => Except.error (.channelFailure "boom")) [1, 2] [] (.channelFailure "boom")
      (TemporalModel.mk "m" "generate_content_activity" [])
      (fun _ _ => Except.error (.channelFailure "down"))
      [LlmRequest.mk (some "x") "hi"] 0 false (.channelFailure "down") rfl rfl⟩

/-- C6: after `set_time_provider(p)`, `get_time()` returns exactly `p()`
until the next platform-time `set`/`reset` (any other operations may run
in between); after `reset_time_provider()`, `get_time()` delegates to the
built-in `time.time` wall clock. The same law holds for the id provider
slot, whose built-in default is `str(uuid.uuid4())`, and each of the two
slots can be swapped without touching the other. -/
theorem c6_provider_laws (env : SysEnv) (p : TimeProviderV) (q : IdProviderV)
    (g : GlobalState) (cs ds : List Cmd)
    (hcs : (cs.all fun c => !c.touchesPlatformTime) = true)
    (hds : (ds.all fun c => !c.touchesPlatformUuid) = true) :
    PlatformTime.get_time env (runCmds cs ((Cmd.ptSet p).run g)).platform_time
      = runTimeProvider env p ∧
    PlatformTime.get_time env ((Cmd.ptReset).run g).platform_time
      = env.time_time () ∧
    PlatformUuid.new_uuid env (runCmds ds ((Cmd.puSet q).run g)).platform_uuid
      = runIdProvider env q ∧
    PlatformUuid.new_uuid env ((Cmd.puReset).run g).platform_uuid
      = env.uuid4 () ∧
    ((Cmd.ptSet p).run g).platform_uuid = g.platform_uuid ∧
    ((Cmd.ptReset).run g).platform_uuid = g.platform_uuid ∧
    ((Cmd.puSet q).run g).platform_time = g.platform_time ∧
    ((Cmd.puReset).run g).platform_time = g.platform_time := by
  have hcs' : ∀ c ∈ cs, c.touchesPlatformTime = false := by
    intro c hc
    have hb := List.all_eq_true.mp hcs c hc
    simpa using hb
  have hds' : ∀ c ∈ ds, c.touchesPlatformUuid = false := by
    intro c hc
    have hb := List.all_eq_true.mp hds c hc
    simpa using hb
  refine ⟨?_, rfl, ?_, rfl, rfl, rfl, rfl, rfl⟩
  · rw [runCmds_pt_frame cs _ hcs']
    rfl
  · rw [runCmds_pu_frame ds _ hds']
    rfl

theorem c6_provider_laws_witness :
    (([Cmd.puSet (.custom fun _ => "q"), Cmd.rtSetTime .timeTime].all
        fun c => !c.touchesPlatformTime) = true) ∧
    (([Cmd.ptReset].all fun c => !c.touchesPlatformUuid) = true) ∧
    (PlatformTime.get_time (SysEnv.mk (fun _ => 0) (fun _ => "u"))
        (runCmds [Cmd.puSet (.custom fun _ => "q"), Cmd.rtSetTime .timeTime]
          ((Cmd.ptSet (.custom fun _ => 7)).run
            (GlobalState.mk PlatformTime.initState PlatformUuid.initState
              Runtime.initState))).platform_time
      = runTimeProvider (SysEnv.mk (fun _ => 0) (fun _ => "u")) (.custom fun _ => 7) ∧
      PlatformTime.get_time (SysEnv.mk (fun _ => 0) (fun _ => "u"))
        ((Cmd.ptReset).run (GlobalState.mk PlatformTime.initState PlatformUuid.initState
          Runtime.initState)).platform_time
        = (SysEnv.mk (fun _ => 0) (fun _ => "u")).time_time () ∧
      PlatformUuid.new_uuid (SysEnv.mk (fun _ => 0) (fun _ => "u"))
        (runCmds [Cmd.ptReset]
          ((Cmd.puSet (.custom fun _ => "q")).run
            (GlobalState.mk PlatformTime.initState PlatformUuid.initState
              Runtime.initState))).platform_uuid
        = runIdProvider (SysEnv.mk (fun _ => 0) (fun _ => "u")) (.custom fun _ => "q") ∧
      PlatformUuid.new_uuid (SysEnv.mk (fun _ => 0) (fun _ => "u"))
        ((Cmd.puReset).run (GlobalState.mk PlatformTime.initState PlatformUuid.initState
          Runtime.initState)).platform_uuid
        = (SysEnv.mk (fun _ => 0) (fun _ => "u")).uuid4 () ∧
      ((Cmd.ptSet (.custom fun _ => 7)).run
          (GlobalState.mk PlatformTime.initState PlatformUuid.initState
            Runtime.initState)).platform_uuid
        = (GlobalState.mk PlatformTime.initState PlatformUuid.initState
            Runtime.initState).platform_uuid ∧
      ((Cmd.ptReset).run
          (GlobalState.mk PlatformTime.initState PlatformUuid.initState
            Runtime.initState)).platform_uuid
        = (GlobalState.mk PlatformTime.initState PlatformUuid.initState
            Runtime.initState).platform_uuid ∧
      ((Cmd.puSet (.custom fun _ => "q")).run
          (GlobalState.mk PlatformTime.initState PlatformUuid.initState
            Runtime.initState)).platform_time
        = (GlobalState.mk PlatformTime.initState PlatformUuid.initState
            Runtime.initState).platform_time ∧
      ((Cmd.puReset).run
          (GlobalState.mk PlatformTime.initState PlatformUuid.initState
            Runtime.initState)).platform_time
        = (GlobalState.mk PlatformTime.initState PlatformUuid.initState
            Runtime.initState).platform_time) :=
  ⟨rfl, rfl,
    c6_provider_laws (SysEnv.mk (fun _ => 0) (fun _ => "u")) (.custom fun _ => 7)
      (.custom fun _ => "q")
      (GlobalState.mk PlatformTime.initState PlatformUuid.initState Runtime.initState)
      [Cmd.puSet (.custom fun _ => "q"), Cmd.rtSetTime .timeTime] [Cmd.ptReset] rfl rfl⟩

/-- C7: the `stream` flag is never read: the two runs differing only in it
are identical — same single dispatch with the same arguments, same heap
effect, and the same resulting fragment sequence. -/
theorem c7_stream_flag_no_effect (m : TemporalModel) (channel : Channel)
    (h : Heap) (reqRef : Nat) :
    m.generate_content_async channel h reqRef true
      = m.generate_content_async channel h reqRef false ∧
    (m.generate_content_async channel h reqRef true).2.1 = [genDispatch m reqRef] :=
  ⟨rfl, rfl⟩

/-- C8: the wrapper returned by `activity_as_tool` carries the wrapped
activity's declared name (the `name` attribute when present, else its
`__name__`), its docstring, its type hints and its parameter signature;
and wrapping the same activity with the same options twice yields
identical metadata. -/
theorem c8_metadata_preserved (a : ActivityDef) (o : List (String × String)) :
    (activity_as_tool a o).name = a.name_attr.getD a.py_name ∧
    (activity_as_tool a o).doc = a.doc ∧
    (activity_as_tool a o).signature = a.signature ∧
    (activity_as_tool a o).hints = a.hints ∧
    activity_as_tool a o = activity_as_tool a o :=
  ⟨rfl, rfl, rfl, rfl, rfl⟩

/-- C9: `generate_content_async` mutates the caller's request object in
place: the post-call heap is exactly the caller's heap with that one cell
updated when the model was falsy (and exactly the caller's heap
otherwise, so no field changes when the model was set), no new object is
allocated, and the dispatch carries the caller's own reference. -/
theorem c9_in_place_mutation (m : TemporalModel) (channel : Channel) (h : Heap)
    (reqRef : Nat) (stream : Bool) (req : LlmRequest)
    (hget : Heap.get h reqRef = some req) :
    (m.generate_content_async channel h reqRef stream).1
      = (if falsyModel req.model then
           Heap.set h reqRef { req with model := some m.model }
         else h) ∧
    (m.generate_content_async channel h reqRef stream).2.1
      = [Dispatch.mk m.activity_def [reqRef] m.activity_options] ∧
    Heap.size (m.generate_content_async channel h reqRef stream).1 = Heap.size h := by
  refine ⟨?_, gen_trace_eq m channel h reqRef stream, ?_⟩
  · rw [gen_heap_eq]
    exact fillModel_eq m h reqRef req hget
  · rw [gen_heap_eq]
    exact fillModel_size m h reqRef

theorem c9_in_place_mutation_witness :
    Heap.get [LlmRequest.mk none "hi"] 0 = some (LlmRequest.mk none "hi") ∧
    (((TemporalModel.mk "m" "generate_content_activity" []).generate_content_async
        (fun _ _ => Except.ok []) [LlmRequest.mk none "hi"] 0 false).1
      = (if falsyModel (LlmRequest.mk none "hi").model then
           Heap.set [LlmRequest.mk none "hi"] 0 (LlmRequest.mk (some "m") "hi")
         else [LlmRequest.mk none "hi"]) ∧
      ((TemporalModel.mk "m" "generate_content_activity" []).generate_content_async
          (fun _ _ => Except.ok []) [LlmRequest.mk none "hi"] 0 false).2.1
        = [Dispatch.mk "generate_content_activity" [0] []] ∧
      Heap.size ((TemporalModel.mk "m" "generate_content_activity" []).generate_content_async
          (fun _ _ => Except.ok []) [LlmRequest.mk none "hi"] 0 false).1
        = Heap.size [LlmRequest.mk none "hi"]) :=
  ⟨rfl, c9_in_place_mutation (TemporalModel.mk "m" "generate_content_activity" [])
    (fun _ _ => Except.ok []) [LlmRequest.mk none "hi"] 0 false
    (LlmRequest.mk none "hi") rfl⟩

/-- C10: the runtime module's provider slots are disjoint copies of the
platform modules' slots: the runtime setters leave both platform modules
untouched (and each other's slot untouched), the platform operations
leave the runtime module untouched, and — the runtime module defining no
reset operation — a runtime provider persists under any sequence of
operations that contains no further runtime install for that slot. -/
theorem c10_registry_independence (env : SysEnv) (p : TimeProviderV)
    (q : IdProviderV) (g : GlobalState) (cs ds : List Cmd)
    (hcs : (cs.all fun c => !c.isRtSetTime) = true)
    (hds : (ds.all fun c => !c.isRtSetId) = true) :
    ((Cmd.rtSetTime p).run g).platform_time = g.platform_time ∧
    ((Cmd.rtSetTime p).run g).platform_uuid = g.platform_uuid ∧
    ((Cmd.rtSetId q).run g).platform_time = g.platform_time ∧
    ((Cmd.rtSetId q).run g).platform_uuid = g.platform_uuid ∧
    Runtime.get_time env (((Cmd.rtSetTime p).run g).runtime) = runTimeProvider env p ∧
    Runtime.new_uuid env (((Cmd.rtSetId q).run g).runtime) = runIdProvider env q ∧
    ((Cmd.rtSetTime p).run g).runtime.id_provider = g.runtime.id_provider ∧
    ((Cmd.rtSetId q).run g).runtime.time_provider = g.runtime.time_provider ∧
    ((Cmd.ptSet p).run g).runtime = g.runtime ∧
    ((Cmd.ptReset).run g).runtime = g.runtime ∧
    ((Cmd.puSet q).run g).runtime = g.runtime ∧
    ((Cmd.puReset).run g).runtime = g.runtime ∧
    (runCmds cs g).runtime.time_provider = g.runtime.time_provider ∧
    (runCmds ds g).runtime.id_provider = g.runtime.id_provider := by
  have hcs' : ∀ c ∈ cs, c.isRtSetTime = false := by
    intro c hc
    have hb := List.all_eq_true.mp hcs c hc
    simpa using hb
  have hds' : ∀ c ∈ ds, c.isRtSetId = false := by
    intro c hc
    have hb := List.all_eq_true.mp hds c hc
    simpa using hb
  exact ⟨rfl, rfl, rfl, rfl, rfl, rfl, rfl, rfl, rfl, rfl, rfl, rfl,
    runCmds_rt_time_frame cs g hcs', runCmds_rt_id_frame ds g hds'⟩

theorem c10_registry_independence_witness :
    (([Cmd.ptReset, Cmd.rtSetId .uuid4Str].all fun c => !c.isRtSetTime) = true) ∧
    (([Cmd.puReset, Cmd.rtSetTime .timeTime].all fun c => !c.isRtSetId) = true) ∧
    (runCmds [Cmd.ptReset, Cmd.rtSetId .uuid4Str]
        (GlobalState.mk PlatformTime.initState PlatformUuid.initState
          (Runtime.State.mk (.custom fun _ => 3) .uuid4Str))).runtime.time_provider
      = (GlobalState.mk PlatformTime.initState PlatformUuid.initState
          (Runtime.State.mk (.custom fun _ => 3) .uuid4Str)).runtime.time_provider ∧
    (runCmds [Cmd.puReset, Cmd.rtSetTime .timeTime]
        (GlobalState.mk PlatformTime.initState PlatformUuid.initState
          (Runtime.State.mk (.custom fun _ => 3) .uuid4Str))).runtime.id_provider
      = (GlobalState.mk PlatformTime.initState PlatformUuid.initState
          (Runtime.State.mk (.custom fun _ => 3) .uuid4Str)).runtime.id_provider ∧
    Runtime.get_time (SysEnv.mk (fun _ => 0) (fun _ => "u"))
        (((Cmd.rtSetTime (.custom fun _ => 3)).run
          (GlobalState.mk PlatformTime.initState PlatformUuid.initState
            Runtime.initState)).runtime)
      = runTimeProvider (SysEnv.mk (fun _ => 0) (fun _ => "u")) (.custom fun _ => 3) ∧
    ((Cmd.rtSetTime (.custom fun _ => 3)).run
        (GlobalState.mk PlatformTime.initState PlatformUuid.initState
          Runtime.initState)).platform_time
      = (GlobalState.mk PlatformTime.initState PlatformUuid.initState
          Runtime.initState).platform_time :=
  ⟨rfl, rfl,
    (c10_registry_independence (SysEnv.mk (fun _ => 0) (fun _ => "u"))
      (.custom fun _ => 3) .uuid4Str
      (GlobalState.mk PlatformTime.initState PlatformUuid.initState
        (Runtime.State.mk (.custom fun _ => 3) .uuid4Str))
      [Cmd.ptReset, Cmd.rtSetId .uuid4Str] [Cmd.puReset, Cmd.rtSetTime .timeTime]
      rfl rfl).2.2.2.2.2.2.2.2.2.2.2.2.1,
    (c10_registry_independence (SysEnv.mk (fun _ => 0) (fun _ => "u"))
      (.custom fun _ => 3) .uuid4Str
      (GlobalState.mk PlatformTime.initState PlatformUuid.initState
        (Runtime.State.mk (.custom fun _ => 3) .uuid4Str))
      [Cmd.ptReset, Cmd.rtSetId .uuid4Str] [Cmd.puReset, Cmd.rtSetTime .timeTime]
      rfl rfl).2.2.2.2.2.2.2.2.2.2.2.2.2,
    (c10_registry_independence (SysEnv.mk (fun _ => 0) (fun _ => "u"))
      (.custom fun _ => 3) .uuid4Str
      (GlobalState.mk PlatformTime.initState PlatformUuid.initState Runtime.initState)
      [] [] rfl rfl).2.2.2.2.1,
    (c10_registry_independence (SysEnv.mk (fun _ => 0) (fun _ => "u"))
      (.custom fun _ => 3) .uuid4Str
      (GlobalState.mk PlatformTime.initState PlatformUuid.initState Runtime.initState)
      [] [] rfl rfl).1⟩
